import Mathlib

/-!
Verification of the query/aggregation/summary core of the spotify-ai-analytics
repository (`src/dataloader/data_loader.py` and `src/dataloader/analysis_functions.py`).

The polars DataFrame is embedded as a `Table`: a column-name list plus a list of
rows, each row an association list from column name to `Value`.  Operations that
polars reports as exceptions (missing column in select/sort/group/agg, duplicate
output names, unsupported aggregation function) are embedded as `Except String`.
Filter expressions (`pl.Expr`) are abstracted as boolean row predicates.
-/

set_option autoImplicit false

namespace Spotify

/-- A scalar cell of the table: polars null, boolean, integer (also used for
millisecond durations), rational (means), or string (track/artist names and
calendar-date strings). -/
inductive Value where
  | null
  | bool (b : Bool)
  | int (i : Int)
  | rat (q : ℚ)
  | str (s : String)
  deriving DecidableEq, Repr

/-- One row of the table: an association list from column name to value. -/
abbrev Row := List (String × Value)

/-- Value of column `c` in row `r` (null when the entry is missing). -/
def Row.get (r : Row) (c : String) : Value :=
  match r.find? (fun p => p.1 == c) with
  | Option.some p => p.2
  | Option.none => Value.null

/-- A polars DataFrame: schema (column names) plus rows. -/
structure Table where
  cols : List String
  rows : List Row
  deriving DecidableEq, Repr

/-- `df.is_empty()` in polars: true when the height (row count) is zero. -/
def Table.is_empty (t : Table) : Bool := t.rows.isEmpty

/-- `pl.DataFrame()`: the zero-column, zero-row frame. -/
def emptyTable : Table := ⟨[], []⟩

/-- Total type rank, used to order values of distinct kinds. -/
def Value.rank : Value → Nat
  | .null => 0
  | .bool _ => 1
  | .int _ => 2
  | .rat _ => 3
  | .str _ => 4

/-- Strict lexicographic order on char lists by code point. -/
def charListLt : List Char → List Char → Bool
  | _, [] => false
  | [], _ :: _ => true
  | a :: as, b :: bs =>
      if a.toNat < b.toNat then true
      else if b.toNat < a.toNat then false
      else charListLt as bs

/-- Boolean string order (lexicographic, as polars orders strings). -/
def strLeB (a b : String) : Bool := a == b || charListLt a.data b.data

/-- A total boolean order on values; nulls sort first, as in polars defaults. -/
def Value.le : Value → Value → Bool
  | .null, .null => true
  | .bool a, .bool b => !a || b
  | .int a, .int b => decide (a ≤ b)
  | .rat a, .rat b => decide (a ≤ b)
  | .str a, .str b => strLeB a b
  | a, b => decide (a.rank ≤ b.rank)

/-- The `where` argument of `query_data`/`aggregate_table`: a polars expression,
a list of expressions, or `None`; expressions are abstracted as row predicates. -/
inductive Filters where
  | none
  | single (p : Row → Bool)
  | list (ps : List (Row → Bool))

/-- The filter stage shared by `query_data` and `aggregate_table`
(`data_loader.py` lines 308-313 and 372-377): a list is combined with
`pl.all_horizontal` (logical AND) and an empty list applies no filter. -/
def applyFilters (t : Table) : Filters → Table
  | Filters.none => t
  | Filters.single p => ⟨t.cols, t.rows.filter p⟩
  | Filters.list ps =>
      if ps.isEmpty then t
      else ⟨t.cols, t.rows.filter (fun r => ps.all (fun p => p r))⟩

/-- Projection of rows onto the columns `cs`, in caller order. -/
def projectRows (cs : List String) (rows : List Row) : List Row :=
  rows.map (fun r => cs.map (fun c => (c, Row.get r c)))

/-- `df.select(cs)`: raises `ColumnNotFoundError` when a requested column is
absent from the schema, and `DuplicateError` when the selection repeats a
column name (polars rejects duplicate output names). -/
def Table.select (t : Table) (cs : List String) : Except String Table :=
  if !(cs.all (fun c => t.cols.contains c)) then
    Except.error "ColumnNotFoundError"
  else if ¬ cs.Nodup then Except.error "DuplicateError"
  else Except.ok ⟨cs, projectRows cs t.rows⟩

/-- Row comparison by the value of column `c`: null values sort first
regardless of direction (the polars default `nulls_last=False`); non-null
values compare by `Value.le`, flipped when `descending`. -/
def rowLe (c : String) (descending : Bool) (a b : Row) : Bool :=
  match Row.get a c, Row.get b c with
  | Value.null, _ => true
  | _, Value.null => false
  | va, vb => if descending then Value.le vb va else Value.le va vb

/-- Insertion into a sorted row list. -/
def insertRow (le : Row → Row → Bool) (r : Row) : List Row → List Row
  | [] => [r]
  | x :: xs => if le x r then x :: insertRow le r xs else r :: x :: xs

/-- Insertion sort of rows by `le`. -/
def sortRows (le : Row → Row → Bool) : List Row → List Row
  | [] => []
  | x :: xs => insertRow le x (sortRows le xs)

/-- `df.sort(c, descending=d)`: raises when the sort column is absent. -/
def Table.sort (t : Table) (c : String) (descending : Bool) : Except String Table :=
  if t.cols.contains c then
    Except.ok ⟨t.cols, sortRows (rowLe c descending) t.rows⟩
  else Except.error ("ColumnNotFoundError: " ++ c)

/-- `df.head(n)`: the first `n` rows. -/
def Table.head (t : Table) (n : Nat) : Table := ⟨t.cols, t.rows.take n⟩

/-- `query_data` (`analysis_functions.py` lines 16-46; the method
`SpotifyDataLoader.query_data`, `data_loader.py` lines 274-324, runs the same
pipeline on `self._df`): empty/None input short-circuits to `pl.DataFrame()`,
then filter, select, sort, limit are applied in that order. -/
def query_data (df : Option Table) (w : Filters) (sel : Option (List String))
    (limit : Option Nat) (sort_by : Option String) (descending : Bool) :
    Except String Table :=
  match df with
  | Option.none => Except.ok emptyTable
  | Option.some t =>
    if t.is_empty then Except.ok emptyTable else
    let tf := applyFilters t w
    match (match sel with
           | Option.none => Except.ok tf
           | Option.some cs => tf.select cs) with
    | Except.error e => Except.error e
    | Except.ok ts =>
      match (match sort_by with
             | Option.none => Except.ok ts
             | Option.some c => ts.sort c descending) with
      | Except.error e => Except.error e
      | Except.ok tso =>
        Except.ok (match limit with
                   | Option.none => tso
                   | Option.some n => tso.head n)

/-- The four aggregation functions `aggregate_table` supports. -/
inductive AggFunc where
  | sum
  | mean
  | count
  | n_unique
  deriving DecidableEq, Repr

/-- One metric spec as the caller writes it: a bare function-name string, or an
explicit `(function, custom_alias)` tuple. -/
inductive Spec where
  | bare (func : String)
  | aliased (func : String) (name : String)
  deriving DecidableEq, Repr

/-- A metrics-dict value: one spec or a list of specs. -/
inductive SpecOrList where
  | one (s : Spec)
  | many (ss : List Spec)
  deriving DecidableEq, Repr

/-- The `metrics` dict, in insertion order (Python dict keys are unique and
iterate in insertion order). -/
abbrev Metrics := List (String × SpecOrList)

/-- A resolved aggregation expression `pl.<func>(col).alias(...)`. -/
structure AggExpr where
  col : String
  func : AggFunc
  deriving DecidableEq, Repr

/-- The function-name string of a spec. -/
def specFunc : Spec → String
  | Spec.bare f => f
  | Spec.aliased f _ => f

/-- Output-column naming (`data_loader.py` line 399): the custom alias when it is
truthy, else the default `"<col>_<func>"`; an empty-string alias is falsy in
Python and therefore falls back to the default name. -/
def specName (col : String) : Spec → String
  | Spec.bare f => col ++ "_" ++ f
  | Spec.aliased f a => if a = "" then col ++ "_" ++ f else a

/-- Spec normalization (`data_loader.py` lines 385-388): a non-list value is
wrapped into a one-element list. -/
def specsOf : SpecOrList → List Spec
  | SpecOrList.one s => [s]
  | SpecOrList.many ss => ss

/-- The flattened `(column, spec)` sequence in iteration order of the two
nested loops of `aggregate_table`. -/
def flatSpecs (metrics : Metrics) : List (String × Spec) :=
  metrics.flatMap (fun p => (specsOf p.2).map (fun s => (p.1, s)))

/-- Whether a function-name string is one of the supported four. -/
def supportedAgg (f : String) : Bool :=
  f == "sum" || f == "mean" || f == "count" || f == "n_unique"

/-- The function-name match of `data_loader.py` lines 406-415: an unrecognized
name raises a `ValueError` whose message is "Unsupported aggregation: " followed
by the function name. -/
def resolveFunc (f : String) : Except String AggFunc :=
  if f = "sum" then Except.ok AggFunc.sum
  else if f = "mean" then Except.ok AggFunc.mean
  else if f = "count" then Except.ok AggFunc.count
  else if f = "n_unique" then Except.ok AggFunc.n_unique
  else Except.error ("Unsupported aggregation: " ++ f)

/-- First unsupported function name in iteration order, if any. -/
def firstUnsupported (metrics : Metrics) : Option String :=
  ((flatSpecs metrics).map (fun p => specFunc p.2)).find? (fun f => !(supportedAgg f))

/-- `agg_exprs_dict[alias_name] = expr` on a Python dict: an existing key keeps
its position and gets the new value, a new key is appended. -/
def dictInsert (d : List (String × AggExpr)) (k : String) (v : AggExpr) :
    List (String × AggExpr) :=
  match d with
  | [] => [(k, v)]
  | p :: rest => if p.1 = k then (k, v) :: rest else p :: dictInsert rest k v

/-- The expression-building loop of `aggregate_table` (`data_loader.py` lines
383-417): resolve each spec in order, raising on the first unsupported function,
and store the expression under its resolved output name (later value wins). -/
def buildLoop (d : List (String × AggExpr)) :
    List (String × Spec) → Except String (List (String × AggExpr))
  | [] => Except.ok d
  | p :: rest =>
    match resolveFunc (specFunc p.2) with
    | Except.error e => Except.error e
    | Except.ok f => buildLoop (dictInsert d (specName p.1 p.2) ⟨p.1, f⟩) rest

/-- The full `agg_exprs_dict` built from the metrics argument. -/
def buildAggExprs (metrics : Metrics) : Except String (List (String × AggExpr)) :=
  buildLoop [] (flatSpecs metrics)

/-- Sum of the integer values of a column (nulls and non-ints contribute 0), as
polars `sum` ignores nulls and returns 0 on an all-null/empty column. -/
def sumInts (vs : List Value) : Int :=
  vs.foldl (fun acc v => match v with | Value.int i => acc + i | _ => acc) 0

/-- Number of non-null values, the polars `count` semantics. -/
def countNonNull (vs : List Value) : Nat :=
  (vs.filter (fun v => v != Value.null)).length

/-- Evaluate one aggregation expression over the rows of a group. -/
def evalAgg (rows : List Row) (e : AggExpr) : Value :=
  let vs := rows.map (fun r => Row.get r e.col)
  match e.func with
  | AggFunc.sum => Value.int (sumInts vs)
  | AggFunc.mean =>
      let nn := vs.filter (fun v => v != Value.null)
      if nn.isEmpty then Value.null
      else Value.rat ((sumInts nn : ℚ) / (nn.length : ℚ))
  | AggFunc.count => Value.int (countNonNull vs)
  | AggFunc.n_unique => Value.int vs.eraseDups.length

/-- The group key of a row under the `group_by` columns. -/
def keyOf (gb : List String) (r : Row) : List Value :=
  gb.map (fun c => Row.get r c)

/-- Distinct group keys in first-occurrence order (null keys form their own
group, as in polars). -/
def groupKeys (gb : List String) (rows : List Row) : List (List Value) :=
  (rows.map (keyOf gb)).eraseDups

/-- `aggregate_table` (`data_loader.py` lines 326-427 and the identical
`analysis_functions.py` lines 48-114): empty/None input short-circuits to
`pl.DataFrame()`; otherwise filter, build the expression dict (raising
`ValueError` on an unsupported function), run `group_by(...).agg(...)` (polars
raises when a referenced column is missing or an output name repeats), then
sort and limit. -/
def aggregate_table (df : Option Table) (gb : List String) (metrics : Metrics)
    (w : Filters) (sort_by : Option String) (descending : Bool)
    (limit : Option Nat) : Except String Table :=
  match df with
  | Option.none => Except.ok emptyTable
  | Option.some t0 =>
    if t0.is_empty then Except.ok emptyTable else
    let t := applyFilters t0 w
    match buildAggExprs metrics with
    | Except.error e => Except.error e
    | Except.ok d =>
      if !(gb.all (fun c => t.cols.contains c)
           && d.all (fun p => t.cols.contains p.2.col)) then
        Except.error "ColumnNotFoundError"
      else if ¬ (gb ++ d.map Prod.fst).Nodup then
        Except.error "DuplicateError"
      else
        let res : Table :=
          ⟨gb ++ d.map Prod.fst,
           (groupKeys gb t.rows).map (fun k =>
             let grp := t.rows.filter (fun r => keyOf gb r == k)
             gb.zip k ++ d.map (fun p => (p.1, evalAgg grp p.2)))⟩
        match (match sort_by with
               | Option.none => Except.ok res
               | Option.some c => res.sort c descending) with
        | Except.error e => Except.error e
        | Except.ok rs =>
          Except.ok (match limit with
                     | Option.none => rs
                     | Option.some n => rs.head n)

/-- The summary structure returned by both `get_summary` implementations
(`SummaryStats` in `analysis_functions.py`); the unique counts are `Option`
because `SpotifyDataLoader.get_summary` initializes them to `None`. -/
structure Summary where
  total_records : Nat
  total_listening_time : Int
  columns : List String
  date_range : Option (String × String)
  unique_tracks : Option Nat
  unique_artists : Option Nat
  deriving DecidableEq, Repr

/-- All values of column `c` in table order. -/
def colValues (t : Table) (c : String) : List Value :=
  t.rows.map (fun r => Row.get r c)

/-- Minimum value of a column, ignoring nulls (polars `min`); `none` when the
column has no non-null value. -/
def minVal? (vs : List Value) : Option Value :=
  (vs.filter (fun v => v != Value.null)).foldl
    (fun acc v =>
      match acc with
      | Option.none => Option.some v
      | Option.some w => Option.some (if Value.le v w then v else w))
    Option.none

/-- Maximum value of a column, ignoring nulls (polars `max`). -/
def maxVal? (vs : List Value) : Option Value :=
  (vs.filter (fun v => v != Value.null)).foldl
    (fun acc v =>
      match acc with
      | Option.none => Option.some v
      | Option.some w => Option.some (if Value.le w v then v else w))
    Option.none

/-- Python `str(x)` on a possibly-absent scalar, as applied to date bounds. -/
def pyStr : Option Value → String
  | Option.none => "None"
  | Option.some Value.null => "None"
  | Option.some (Value.str s) => s
  | Option.some (Value.int i) => toString i
  | Option.some (Value.bool b) => if b then "True" else "False"
  | Option.some (Value.rat q) => toString q

/-- `pl.col("ms_played").sum().dt.total_minutes()`: total milliseconds divided
by 60000, truncating toward zero. -/
def totalMinutes (t : Table) : Int :=
  Int.tdiv (sumInts (colValues t "ms_played")) 60000

/-- `pl.col(c).n_unique()`: number of distinct values, nulls included. -/
def nUnique (t : Table) (c : String) : Nat :=
  (colValues t c).eraseDups.length

/-- The fields of `SpotifyDataLoader` that its query methods touch: `_df` plus
the constructor settings. -/
structure SpotifyDataLoader where
  df : Option Table
  strict_validation : Bool := false
  timezone : String := "Asia/Taipei"
  deriving DecidableEq, Repr

/-- The empty-store summary literal of `data_loader.py` lines 231-239: note
`unique_tracks` and `unique_artists` are `None`, not 0. -/
def loaderEmptySummary : Summary :=
  ⟨0, 0, [], Option.none, Option.none, Option.none⟩

/-- `SpotifyDataLoader.get_summary` (`data_loader.py` lines 224-271).
The `ms_played` and `date` statistics are guarded by column-membership checks,
but the unique counts sit behind `if track_identifier:` / `if artist_col_name:`
where both names are non-empty string constants, so those guards are always
true and the selection of a missing `track_uri`/`artist` column is a polars
`ColumnNotFoundError`. -/
def SpotifyDataLoader.get_summary (self : SpotifyDataLoader) :
    Except String Summary :=
  match self.df with
  | Option.none => Except.ok loaderEmptySummary
  | Option.some t =>
    if t.is_empty then Except.ok loaderEmptySummary else
    let tlt : Int := if t.cols.contains "ms_played" then totalMinutes t else 0
    let dr : Option (String × String) :=
      if t.cols.contains "date" then
        Option.some (pyStr (minVal? (colValues t "date")),
                     pyStr (maxVal? (colValues t "date")))
      else Option.none
    if !(t.cols.contains "track_uri") then
      Except.error "ColumnNotFoundError: track_uri"
    else if !(t.cols.contains "artist") then
      Except.error "ColumnNotFoundError: artist"
    else
      Except.ok ⟨t.rows.length, tlt, t.cols, dr,
                 Option.some (nUnique t "track_uri"),
                 Option.some (nUnique t "artist")⟩

/-- The date filters `get_summary` builds from its optional bounds
(`analysis_functions.py` lines 124-128); dates are modelled as strings whose
lexicographic order is calendar order. -/
def dateFilters (sd ed : Option String) : List (Row → Bool) :=
  (match sd with
   | Option.some s => [fun r => Value.le (Value.str s) (Row.get r "date")]
   | Option.none => []) ++
  (match ed with
   | Option.some e => [fun r => Value.le (Row.get r "date") (Value.str e)]
   | Option.none => [])

/-- The standalone `get_summary` (`analysis_functions.py` lines 116-171):
filter by the date bounds through `query_data`; an empty filtered frame returns
the zero summary with the ORIGINAL frame's column list; otherwise each metric
is included only when its source column is present (`track` is the fallback
identifier for `track_uri`).  When none of the five metric columns is present,
`df_filtered.select([]).to_dicts()[0]` raises `IndexError` because selecting
zero expressions yields a zero-row frame. -/
def get_summary (df : Option Table) (sd ed : Option String) :
    Except String Summary :=
  match query_data df (Filters.list (dateFilters sd ed)) Option.none Option.none
      Option.none true with
  | Except.error e => Except.error e
  | Except.ok dfil =>
    if dfil.is_empty then
      Except.ok ⟨0, 0,
        (match df with | Option.some t => t.cols | Option.none => []),
        Option.none, Option.some 0, Option.some 0⟩
    else if !(dfil.cols.contains "ms_played" || dfil.cols.contains "date"
              || dfil.cols.contains "track_uri" || dfil.cols.contains "track"
              || dfil.cols.contains "artist") then
      Except.error "IndexError: list index out of range"
    else
      let total_min : Int :=
        if dfil.cols.contains "ms_played" then totalMinutes dfil else 0
      let dr : Option (String × String) :=
        if dfil.cols.contains "date" then
          match minVal? (colValues dfil "date"), maxVal? (colValues dfil "date") with
          | Option.some a, Option.some b =>
              Option.some (pyStr (Option.some a), pyStr (Option.some b))
          | _, _ => Option.none
        else Option.none
      let ut : Nat :=
        if dfil.cols.contains "track_uri" then nUnique dfil "track_uri"
        else if dfil.cols.contains "track" then nUnique dfil "track"
        else 0
      let ua : Nat :=
        if dfil.cols.contains "artist" then nUnique dfil "artist" else 0
      Except.ok ⟨dfil.rows.length, total_min, dfil.cols, dr,
                 Option.some ut, Option.some ua⟩

/-- The method `SpotifyDataLoader.query_data` (`data_loader.py` lines 274-324)
as an explicit state transformer: its body only reads `self._df` and builds new
frames from it, so the post-state is the receiver unchanged. -/
def SpotifyDataLoader.query_data (self : SpotifyDataLoader) (w : Filters)
    (sel : Option (List String)) (limit : Option Nat) (sort_by : Option String)
    (descending : Bool) : SpotifyDataLoader × Except String Table :=
  (self, Spotify.query_data self.df w sel limit sort_by descending)

/-- The method `SpotifyDataLoader.aggregate_table` (`data_loader.py` lines
326-427) as an explicit state transformer; like `query_data` it only reads
`self._df`. -/
def SpotifyDataLoader.aggregate_table (self : SpotifyDataLoader)
    (gb : List String) (metrics : Metrics) (w : Filters)
    (sort_by : Option String) (descending : Bool) (limit : Option Nat) :
    SpotifyDataLoader × Except String Table :=
  (self, Spotify.aggregate_table self.df gb metrics w sort_by descending limit)

/-- The later-in-iteration-order spec resolving to output name `nm`; this
definition follows the spec's collision-policy wording ("the later one in
iteration order wins") for comparison against `buildAggExprs`. -/
def lastSpecFor (metrics : Metrics) (nm : String) : Option (String × Spec) :=
  (flatSpecs metrics).reverse.find? (fun p => specName p.1 p.2 == nm)

/-- The 3-row store of the spec's concrete scenario (§8): artists {A, A, B},
durations {180000, 200000, 150000} ms. -/
def t3 : Table :=
  ⟨["artist", "ms_played"],
   [[("artist", Value.str "A"), ("ms_played", Value.int 180000)],
    [("artist", Value.str "A"), ("ms_played", Value.int 200000)],
    [("artist", Value.str "B"), ("ms_played", Value.int 150000)]]⟩

/-- A non-empty store whose schema lacks the track-identifier and artist
columns (the historically-varying upstream format of spec §4.4). -/
def tNoUri : Table :=
  ⟨["track", "ms_played"],
   [[("track", Value.str "Song"), ("ms_played", Value.int 60000)]]⟩

/-- A one-row store with a date column, used to exercise filtered-to-empty
summaries. -/
def tDated : Table :=
  ⟨["date", "artist"],
   [[("date", Value.str "2024-01-01"), ("artist", Value.str "A")]]⟩

/-- Two metric specs on the same source column resolving to the same output
name "v": sum first, count later. -/
def mCollide : Metrics :=
  [("ms_played", SpecOrList.many [Spec.aliased "sum" "v", Spec.aliased "count" "v"])]

/-- A metrics dict requesting the unsupported function "median". -/
def mMedian : Metrics :=
  [("ms_played", SpecOrList.one (Spec.bare "median"))]

/-- The expression dict `mCollide` resolves to: one entry, holding the later
(count) spec. -/
def dCollide : List (String × AggExpr) :=
  [("v", AggExpr.mk "ms_played" AggFunc.count)]

/-- The aggregation result of `mCollide` over `t3`: the single output column
"v" carries the later spec's (count) values. -/
def rCollide : Table :=
  ⟨["artist", "v"],
   [[("artist", Value.str "A"), ("v", Value.int 2)],
    [("artist", Value.str "B"), ("v", Value.int 1)]]⟩

end Spotify

namespace Spotify

/-- C8: on the 3-row store with artists {A, A, B} and durations
{180000, 200000, 150000} ms, grouping by artist and summing `ms_played` under
the alias `total_ms` yields exactly two rows, A with 380000 and B with
150000. -/
theorem c8_concrete_group_sum :
    aggregate_table (Option.some t3) ["artist"]
        [("ms_played", SpecOrList.one (Spec.aliased "sum" "total_ms"))]
        Filters.none Option.none true Option.none
      = Except.ok ⟨["artist", "total_ms"],
          [[("artist", Value.str "A"), ("total_ms", Value.int 380000)],
           [("artist", Value.str "B"), ("total_ms", Value.int 150000)]]⟩ := rfl

/-- C1: the claim says a summary never errors because of a missing statistic
column, but `SpotifyDataLoader.get_summary` guards its unique counts with
`if track_identifier:` over the constant string "track_uri" (always true), so
on a store lacking that column it selects it anyway and raises
`ColumnNotFoundError`; the standalone `get_summary` on the same store conforms
to the claim, returning normally with the absent statistics zeroed. -/
theorem c1_missing_column_raises :
    SpotifyDataLoader.get_summary ⟨Option.some tNoUri, false, "Asia/Taipei"⟩
      = Except.error "ColumnNotFoundError: track_uri"
    ∧ get_summary (Option.some tNoUri) Option.none Option.none
      = Except.ok ⟨1, 1, ["track", "ms_played"], Option.none,
                   Option.some 1, Option.some 0⟩ :=
  ⟨rfl, rfl⟩

/-- C2 counterexample: on an empty store the loader's summary reports
`unique_tracks` (and `unique_artists`) as `None`, not as the zero the claim
requires. -/
theorem c2_counterexample :
    SpotifyDataLoader.get_summary ⟨Option.some ⟨["track"], []⟩, false, "Asia/Taipei"⟩
      = Except.ok loaderEmptySummary
    ∧ loaderEmptySummary.unique_tracks = Option.none
    ∧ loaderEmptySummary.unique_tracks ≠ Option.some 0 :=
  ⟨rfl, rfl, by decide⟩

/-- C4: a query or aggregation against a `None` or zero-row store returns the
empty frame `pl.DataFrame()` regardless of filters, projection, group-by
columns, metrics, sort and limit, and never throws. -/
theorem c4_empty_store (w : Filters) (sel : Option (List String))
    (lim : Option Nat) (sb : Option String) (d : Bool) (gb : List String)
    (metrics : Metrics) (t : Table) (h : t.is_empty = true) :
    query_data Option.none w sel lim sb d = Except.ok emptyTable
    ∧ query_data (Option.some t) w sel lim sb d = Except.ok emptyTable
    ∧ aggregate_table Option.none gb metrics w sb d lim = Except.ok emptyTable
    ∧ aggregate_table (Option.some t) gb metrics w sb d lim = Except.ok emptyTable := by
  refine ⟨rfl, ?_, rfl, ?_⟩ <;> simp [query_data, aggregate_table, h]

/-- C4 witness: the empty-store guarantee at a concrete request mixing every
clause with an unsupported metric function. -/
theorem c4_empty_store_witness :
    query_data Option.none (Filters.single (fun r => Row.get r "year" == Value.int 2023))
        (Option.some ["track"]) (Option.some 5) (Option.some "ms_played") true
      = Except.ok emptyTable
    ∧ query_data (Option.some ⟨["artist"], []⟩)
        (Filters.single (fun r => Row.get r "year" == Value.int 2023))
        (Option.some ["track"]) (Option.some 5) (Option.some "ms_played") true
      = Except.ok emptyTable
    ∧ aggregate_table Option.none ["artist"] mMedian
        (Filters.single (fun r => Row.get r "year" == Value.int 2023))
        (Option.some "ms_played") true (Option.some 5) = Except.ok emptyTable
    ∧ aggregate_table (Option.some ⟨["artist"], []⟩) ["artist"] mMedian
        (Filters.single (fun r => Row.get r "year" == Value.int 2023))
        (Option.some "ms_played") true (Option.some 5) = Except.ok emptyTable :=
  c4_empty_store (Filters.single (fun r => Row.get r "year" == Value.int 2023))
    (Option.some ["track"]) (Option.some 5) (Option.some "ms_played") true
    ["artist"] mMedian ⟨["artist"], []⟩ rfl

/-- C9: the loader's query and aggregation methods leave the store state
unchanged, and repeating the same call on the post-state returns an equal
result: the methods only read `self._df`. -/
theorem c9_store_unchanged (m : SpotifyDataLoader) (w : Filters)
    (sel : Option (List String)) (lim : Option Nat) (sb : Option String)
    (d : Bool) (gb : List String) (metrics : Metrics) :
    (m.query_data w sel lim sb d).1 = m
    ∧ (m.aggregate_table gb metrics w sb d lim).1 = m
    ∧ ((m.query_data w sel lim sb d).1.query_data w sel lim sb d).2
        = (m.query_data w sel lim sb d).2
    ∧ ((m.aggregate_table gb metrics w sb d lim).1.aggregate_table gb metrics w sb d lim).2
        = (m.aggregate_table gb metrics w sb d lim).2 :=
  ⟨rfl, rfl, rfl, rfl⟩

/-- C7 counterexample: an explicit `("sum", "")` pair does not produce a column
named by its alias verbatim; the empty alias is falsy in Python, so the output
column falls back to the default name `ms_played_sum`. -/
theorem c7_counterexample :
    aggregate_table (Option.some t3) ["artist"]
        [("ms_played", SpecOrList.one (Spec.aliased "sum" ""))]
        Filters.none Option.none true Option.none
      = Except.ok ⟨["artist", "ms_played_sum"],
          [[("artist", Value.str "A"), ("ms_played_sum", Value.int 380000)],
           [("artist", Value.str "B"), ("ms_played_sum", Value.int 150000)]]⟩
    ∧ ¬ ("" ∈ ["artist", "ms_played_sum"]) :=
  ⟨rfl, by decide⟩

/-- C5 counterexample: an aggregation request with the unsupported function
"median" against an empty store does not raise; the empty-store short-circuit
returns an empty frame before the metrics are inspected. -/
theorem c5_counterexample :
    aggregate_table (Option.some emptyTable) ["artist"] mMedian
        Filters.none Option.none true Option.none = Except.ok emptyTable := rfl

/-- Filtering never changes the schema. -/
theorem applyFilters_cols (t : Table) (w : Filters) :
    (applyFilters t w).cols = t.cols := by
  cases w with
  | none => rfl
  | single p => rfl
  | list ps => by_cases h : ps.isEmpty <;> simp [applyFilters, h]

/-- C6: a list-of-predicates filter behaves as the single AND-combined
predicate; the empty filter list is the same as passing no filter; and with no
projection/sort/limit the query returns exactly the rows satisfying the
conjunction. -/
theorem c6_filter_conjunction (t : Table) (ht : t.is_empty = false)
    (ps : List (Row → Bool)) (sel : Option (List String)) (lim : Option Nat)
    (sb : Option String) (d : Bool) :
    query_data (Option.some t) (Filters.list ps) sel lim sb d
      = query_data (Option.some t)
          (Filters.single (fun r => ps.all (fun p => p r))) sel lim sb d
    ∧ query_data (Option.some t) (Filters.list []) sel lim sb d
      = query_data (Option.some t) Filters.none sel lim sb d
    ∧ query_data (Option.some t) (Filters.list ps) Option.none Option.none
          Option.none d
      = Except.ok ⟨t.cols, t.rows.filter (fun r => ps.all (fun p => p r))⟩ := by
  have hf : applyFilters t (Filters.list ps)
      = applyFilters t (Filters.single (fun r => ps.all (fun p => p r))) := by
    cases ps with
    | nil => simp [applyFilters]
    | cons p ps' => simp [applyFilters]
  have hf0 : applyFilters t (Filters.list []) = applyFilters t Filters.none := by
    simp [applyFilters]
  refine ⟨?_, ?_, ?_⟩
  · simp only [query_data, ht, hf]
  · simp only [query_data, ht, hf0]
  · by_cases hps : ps.isEmpty
    · have : ps = [] := by simpa using hps
      subst this
      simp [query_data, ht, applyFilters]
    · simp [query_data, ht, applyFilters, hps]

/-- C10: clause order is filter, projection, sort, limit.  With a valid
(present, pairwise-distinct) projection, a sort column outside the projected
columns is an error (the sort runs on the projected frame); with a sort column
inside them, the result is the first `n` rows of the sorted projection of the
filtered store. -/
theorem c10_clause_order (t : Table) (ht : t.is_empty = false) (w : Filters)
    (S : List String) (c c2 : String) (n : Nat) (d : Bool)
    (hS : S.all (fun s => t.cols.contains s) = true) (hSnd : S.Nodup)
    (hc : S.contains c = false) (hc2 : S.contains c2 = true) :
    query_data (Option.some t) w (Option.some S) (Option.some n)
        (Option.some c) d
      = Except.error ("ColumnNotFoundError: " ++ c)
    ∧ query_data (Option.some t) w (Option.some S) (Option.some n)
        (Option.some c2) d
      = Except.ok ⟨S, (sortRows (rowLe c2 d)
          (projectRows S (applyFilters t w).rows)).take n⟩ := by
  have hc' : c ∉ S := by simpa using hc
  have hc2' : c2 ∈ S := by simpa using hc2
  have hcond : (S.all fun cc => (applyFilters t w).cols.contains cc) = true := by
    simpa [applyFilters_cols] using hS
  have hnotc : ¬ ((!(S.all fun cc => (applyFilters t w).cols.contains cc))
      = true) := by
    rw [hcond]
    simp
  have hsel : (applyFilters t w).select S
      = Except.ok ⟨S, projectRows S (applyFilters t w).rows⟩ := by
    unfold Table.select
    rw [if_neg hnotc, if_neg (not_not_intro hSnd)]
  constructor
  · simp [query_data, ht, hsel, Table.sort, hc']
  · simp [query_data, ht, hsel, Table.sort, hc2', Table.head]

/-- An unsupported function name makes `resolveFunc` raise the descriptive
`ValueError` message. -/
theorem resolveFunc_error_of_unsupported (f : String)
    (h : supportedAgg f = false) :
    resolveFunc f = Except.error ("Unsupported aggregation: " ++ f) := by
  simp only [supportedAgg, Bool.or_eq_false_iff, beq_eq_false_iff_ne, ne_eq] at h
  obtain ⟨⟨⟨h1, h2⟩, h3⟩, h4⟩ := h
  simp [resolveFunc, h1, h2, h3, h4]

/-- A supported function name resolves successfully. -/
theorem resolveFunc_ok_of_supported (f : String) (h : supportedAgg f = true) :
    ∃ g, resolveFunc f = Except.ok g := by
  simp only [supportedAgg, Bool.or_eq_true, beq_iff_eq] at h
  rcases h with ((h | h) | h) | h <;> subst h <;> exact ⟨_, rfl⟩

/-- The expression-building loop raises on the first unsupported function in
iteration order, whatever dict it has accumulated so far. -/
theorem buildLoop_error_first_unsupported (l : List (String × Spec))
    (f : String) : ∀ d,
    (l.map (fun p => specFunc p.2)).find? (fun g => !(supportedAgg g))
      = Option.some f →
    buildLoop d l = Except.error ("Unsupported aggregation: " ++ f) := by
  induction l with
  | nil => intro d h; simp at h
  | cons p rest ih =>
    intro d h
    by_cases hs : supportedAgg (specFunc p.2) = true
    · have hfind : (rest.map (fun p => specFunc p.2)).find?
          (fun g => !(supportedAgg g)) = Option.some f := by
        rw [List.map_cons, List.find?_cons_of_neg] at h
        · exact h
        · simp [hs]
      obtain ⟨g, hg⟩ := resolveFunc_ok_of_supported _ hs
      simp only [buildLoop, hg]
      exact ih _ hfind
    · have hs' : supportedAgg (specFunc p.2) = false := by
        revert hs; cases supportedAgg (specFunc p.2) <;> simp
      have hf : f = specFunc p.2 := by
        rw [List.map_cons, List.find?_cons_of_pos] at h
        · exact (Option.some.inj h).symm
        · simp [hs']
      subst hf
      simp [buildLoop, resolveFunc_error_of_unsupported _ hs']

/-- C5 (amended): on a NON-empty store, an aggregation request whose metrics
contain an unsupported function name fails fast with the descriptive
`ValueError` naming the first unsupported function, never returning a result;
on an empty store the same request short-circuits to an empty frame before the
metrics are inspected. -/
theorem c5_amended_unsupported (t : Table) (ht : t.is_empty = false)
    (gb : List String) (metrics : Metrics) (w : Filters) (sb : Option String)
    (d : Bool) (lim : Option Nat) (f : String)
    (h : firstUnsupported metrics = Option.some f) :
    aggregate_table (Option.some t) gb metrics w sb d lim
      = Except.error ("Unsupported aggregation: " ++ f)
    ∧ supportedAgg f = false
    ∧ aggregate_table (Option.some emptyTable) gb metrics w sb d lim
      = Except.ok emptyTable := by
  have hb : buildAggExprs metrics
      = Except.error ("Unsupported aggregation: " ++ f) :=
    buildLoop_error_first_unsupported (flatSpecs metrics) f [] h
  have hsup : supportedAgg f = false := by
    have := List.find?_some h
    simpa using this
  exact ⟨by simp [aggregate_table, ht, hb], hsup, rfl⟩

/-- C5 witness: requesting "median" on the non-empty 3-row store raises the
descriptive error, and the same request on the empty store returns an empty
frame. -/
theorem c5_unsupported_witness :
    aggregate_table (Option.some t3) ["artist"] mMedian Filters.none
        Option.none true Option.none
      = Except.error ("Unsupported aggregation: " ++ "median")
    ∧ supportedAgg "median" = false
    ∧ aggregate_table (Option.some emptyTable) ["artist"] mMedian Filters.none
        Option.none true Option.none = Except.ok emptyTable :=
  c5_amended_unsupported t3 rfl ["artist"] mMedian Filters.none Option.none
    true Option.none "median" rfl

/-- Dict assignment keeps the key list unchanged when the key exists, else
appends the key. -/
theorem dictInsert_keys (d : List (String × AggExpr)) (k : String)
    (v : AggExpr) :
    (dictInsert d k v).map Prod.fst
      = if (d.map Prod.fst).contains k then d.map Prod.fst
        else d.map Prod.fst ++ [k] := by
  induction d with
  | nil => simp [dictInsert]
  | cons p rest ih =>
    by_cases hp : p.1 = k
    · simp [dictInsert, hp]
    · have hkp : (k == p.1) = false := by
        simp only [beq_eq_false_iff_ne, ne_eq]
        exact fun hh => hp hh.symm
      simp only [dictInsert, hp, if_false, List.map_cons, List.contains_cons,
        ih, hkp, Bool.false_or]
      by_cases hr : (rest.map Prod.fst).contains k = true
      · rw [if_pos hr, if_pos hr]
      · rw [if_neg hr, if_neg hr, List.cons_append]

/-- Dict assignment preserves key uniqueness. -/
theorem dictInsert_keys_nodup (d : List (String × AggExpr)) (k : String)
    (v : AggExpr) (hd : (d.map Prod.fst).Nodup) :
    ((dictInsert d k v).map Prod.fst).Nodup := by
  rw [dictInsert_keys]
  by_cases hk : (d.map Prod.fst).contains k = true
  · rw [if_pos hk]; exact hd
  · rw [if_neg hk]
    have hnk : k ∉ d.map Prod.fst := by simpa using hk
    simp [List.nodup_append, hd, hnk]

/-- Lookup after dict assignment: the assigned key maps to the new value, all
other keys are unaffected. -/
theorem dictInsert_lookup (d : List (String × AggExpr)) (k : String)
    (v : AggExpr) (q : String) :
    (dictInsert d k v).lookup q
      = if q = k then Option.some v else d.lookup q := by
  induction d with
  | nil =>
    by_cases h : q = k
    · simp [dictInsert, List.lookup, h]
    · have hqk : (q == k) = false := by simpa using h
      simp [dictInsert, List.lookup, hqk, h]
  | cons p rest ih =>
    by_cases hp : p.1 = k
    · subst hp
      by_cases h : q = p.1
      · simp [dictInsert, List.lookup, h]
      · have hqk : (q == p.1) = false := by simpa using h
        simp [dictInsert, List.lookup, hqk, h]
    · by_cases h : q = k
      · subst h
        have hqp : (q == p.1) = false := by
          simp only [beq_eq_false_iff_ne, ne_eq]
          exact fun hh => hp hh.symm
        simp [dictInsert, hp, List.lookup, hqp, ih]
      · by_cases hqp : q = p.1
        · subst hqp
          simp [dictInsert, hp, List.lookup, ih, h]
        · have hqp' : (q == p.1) = false := by simpa using hqp
          simp [dictInsert, hp, List.lookup, hqp', ih, h]

/-- `find?` over an appended list tries the left part first. -/
theorem find?_append_cases {α : Type} (p : α → Bool) (l₁ l₂ : List α) :
    (l₁ ++ l₂).find? p
      = match l₁.find? p with
        | Option.some a => Option.some a
        | Option.none => l₂.find? p := by
  induction l₁ with
  | nil => simp
  | cons a t ih =>
    by_cases h : p a = true
    · simp [List.find?_cons_of_pos, h]
    · have h' : ¬ p a = true := h
      simp only [List.cons_append, List.find?_cons_of_neg _ h', ih]

/-- A successful build loop produces a dict with pairwise-distinct keys. -/
theorem buildLoop_ok_nodup (l : List (String × Spec)) :
    ∀ d dout, (d.map Prod.fst).Nodup → buildLoop d l = Except.ok dout →
    (dout.map Prod.fst).Nodup := by
  induction l with
  | nil =>
    intro d dout hd h
    cases h
    exact hd
  | cons p rest ih =>
    intro d dout hd h
    cases hr : resolveFunc (specFunc p.2) with
    | error e => simp [buildLoop, hr] at h
    | ok f =>
      have h' : buildLoop (dictInsert d (specName p.1 p.2) ⟨p.1, f⟩) rest
          = Except.ok dout := by
        simpa [buildLoop, hr] using h
      exact ih _ _ (dictInsert_keys_nodup _ _ _ hd) h'

/-- A successful build loop maps each output name to the expression of the
LAST (in iteration order) spec resolving to that name; names no spec resolves
to keep their incoming binding. -/
theorem buildLoop_ok_lookup (l : List (String × Spec)) :
    ∀ d dout, buildLoop d l = Except.ok dout → ∀ nm,
    dout.lookup nm
      = match l.reverse.find? (fun p => specName p.1 p.2 == nm) with
        | Option.some p =>
            (resolveFunc (specFunc p.2)).toOption.map
              (fun f => AggExpr.mk p.1 f)
        | Option.none => d.lookup nm := by
  induction l with
  | nil =>
    intro d dout h nm
    cases h
    simp
  | cons p rest ih =>
    intro d dout h nm
    cases hr : resolveFunc (specFunc p.2) with
    | error e => simp [buildLoop, hr] at h
    | ok f =>
      have h' : buildLoop (dictInsert d (specName p.1 p.2) ⟨p.1, f⟩) rest
          = Except.ok dout := by
        simpa [buildLoop, hr] using h
      have hih := ih _ _ h' nm
      rw [List.reverse_cons,
          find?_append_cases (fun q => specName q.1 q.2 == nm) rest.reverse [p]]
      cases hfind : rest.reverse.find? (fun q => specName q.1 q.2 == nm) with
      | some q =>
        rw [hfind] at hih
        simpa using hih
      | none =>
        rw [hfind] at hih
        rw [dictInsert_lookup] at hih
        by_cases hpn : specName p.1 p.2 = nm
        · have hb : (specName p.1 p.2 == nm) = true := by simpa using hpn
          simp only [List.find?, hb]
          rw [hih, if_pos hpn.symm]
          simp [hr, Except.toOption]
        · have hb : (specName p.1 p.2 == nm) = false := by simpa using hpn
          simp only [List.find?, hb]
          rw [hih, if_neg (fun hh => hpn hh.symm)]

/-- Sorting preserves the schema. -/
theorem sort_ok_cols (t : Table) (c : String) (d : Bool) (u : Table)
    (h : t.sort c d = Except.ok u) : u.cols = t.cols := by
  unfold Table.sort at h
  split at h
  · cases h; rfl
  · cases h

/-- The shared sort-then-limit postlude preserves the schema of its input. -/
theorem postlude_cols (r0 : Table) (sb : Option String) (desc : Bool)
    (lim : Option Nat) (res : Table)
    (h : (match (match sb with
                 | Option.none => Except.ok r0
                 | Option.some c => r0.sort c desc) with
          | Except.error e => Except.error e
          | Except.ok rs =>
              Except.ok (match lim with
                         | Option.none => rs
                         | Option.some n => rs.head n)) = Except.ok res) :
    res.cols = r0.cols := by
  cases sb with
  | none =>
    cases lim with
    | none => cases h; rfl
    | some n => cases h; rfl
  | some c =>
    dsimp only at h
    cases hs : r0.sort c desc with
    | error e => rw [hs] at h; cases h
    | ok u =>
      rw [hs] at h
      have hu := sort_ok_cols _ _ _ _ hs
      cases lim with
      | none => cases h; exact hu
      | some n => cases h; simpa [Table.head] using hu

/-- A successful non-empty-store aggregation fixes the output schema: the
group-by columns followed by the dict's output names, all pairwise
distinct. -/
theorem aggregate_ok_shape (t : Table) (gb : List String) (metrics : Metrics)
    (w : Filters) (sb : Option String) (desc : Bool) (lim : Option Nat)
    (res : Table) (ht : t.is_empty = false)
    (h : aggregate_table (Option.some t) gb metrics w sb desc lim
      = Except.ok res) :
    ∃ d, buildAggExprs metrics = Except.ok d
      ∧ res.cols = gb ++ d.map Prod.fst
      ∧ (gb ++ d.map Prod.fst).Nodup := by
  simp only [aggregate_table, ht, Bool.false_eq_true, if_false] at h
  cases hb : buildAggExprs metrics with
  | error e => rw [hb] at h; cases h
  | ok d =>
    rw [hb] at h
    dsimp only at h
    refine ⟨d, rfl, ?_⟩
    split at h
    · cases h
    · by_cases hnd : (gb ++ d.map Prod.fst).Nodup
      · rw [if_neg (not_not_intro hnd)] at h
        exact ⟨postlude_cols _ sb desc lim res h, hnd⟩
      · rw [if_pos hnd] at h; cases h

/-- C3: when metric specs collide on an output name, the expression dict holds
exactly one entry per name, valued by the LAST spec in iteration order that
resolves to it (Python dict last-write-wins), so a successful aggregation
carries exactly one column per resolved name and its schema has no
duplicates. -/
theorem c3_collision_last_write_wins (metrics : Metrics)
    (d : List (String × AggExpr)) (hb : buildAggExprs metrics = Except.ok d) :
    (d.map Prod.fst).Nodup
    ∧ (∀ nm : String, d.lookup nm
        = match lastSpecFor metrics nm with
          | Option.some p =>
              (resolveFunc (specFunc p.2)).toOption.map
                (fun f => AggExpr.mk p.1 f)
          | Option.none => Option.none)
    ∧ ∀ (t : Table) (gb : List String) (w : Filters) (sb : Option String)
        (desc : Bool) (lim : Option Nat) (res : Table),
        t.is_empty = false →
        aggregate_table (Option.some t) gb metrics w sb desc lim
          = Except.ok res →
        res.cols = gb ++ d.map Prod.fst ∧ res.cols.Nodup := by
  refine ⟨buildLoop_ok_nodup (flatSpecs metrics) [] d (by simp) hb, ?_, ?_⟩
  · intro nm
    have hlk := buildLoop_ok_lookup (flatSpecs metrics) [] d hb nm
    simpa [lastSpecFor] using hlk
  · intro t gb w sb desc lim res ht hagg
    obtain ⟨d', hb', hcols, hnd⟩ :=
      aggregate_ok_shape t gb metrics w sb desc lim res ht hagg
    rw [hb] at hb'
    cases hb'
    exact ⟨hcols, hcols.symm ▸ hnd⟩

/-- C3 witness: the colliding metrics `mCollide` build a one-entry dict valued
by the later (count) spec, and aggregating them over the 3-row store yields the
single "v" column carrying the count values, with a duplicate-free schema. -/
theorem c3_collision_witness :
    buildAggExprs mCollide = Except.ok dCollide
    ∧ (dCollide.map Prod.fst).Nodup
    ∧ aggregate_table (Option.some t3) ["artist"] mCollide Filters.none
        Option.none true Option.none = Except.ok rCollide
    ∧ rCollide.cols = ["artist"] ++ dCollide.map Prod.fst
    ∧ rCollide.cols.Nodup := by
  have h := c3_collision_last_write_wins mCollide dCollide rfl
  have h3 := h.2.2 t3 ["artist"] Filters.none Option.none true Option.none
    rCollide rfl rfl
  exact ⟨rfl, h.1, rfl, h3.1, h3.2⟩

/-- C7 (amended): a bare spec names its column `"<col>_<func>"`; an explicit
pair with a NON-empty alias names it by the alias verbatim; a pair with an
empty alias falls back to the default name (Python tests the alias for
truthiness, not for being supplied); and a successful single-spec aggregation's
schema is the group keys followed by that resolved name. -/
theorem c7_amended_output_naming (c f a : String) (ha : a ≠ "") (s : Spec)
    (t : Table) (gb : List String) (w : Filters) (res : Table)
    (ht : t.is_empty = false)
    (h : aggregate_table (Option.some t) gb [(c, SpecOrList.one s)] w
        Option.none true Option.none = Except.ok res) :
    specName c (Spec.bare f) = c ++ "_" ++ f
    ∧ specName c (Spec.aliased f a) = a
    ∧ specName c (Spec.aliased f "") = c ++ "_" ++ f
    ∧ res.cols = gb ++ [specName c s] := by
  refine ⟨rfl, by simp [specName, ha], rfl, ?_⟩
  obtain ⟨d, hb, hcols, _⟩ := aggregate_ok_shape t gb [(c, SpecOrList.one s)]
    w Option.none true Option.none res ht h
  have hbl : buildLoop [] [(c, s)] = Except.ok d := hb
  have hd : d.map Prod.fst = [specName c s] := by
    cases hr : resolveFunc (specFunc s) with
    | error e => simp [buildLoop, hr] at hbl
    | ok f' =>
      simp only [buildLoop, hr, dictInsert] at hbl
      cases hbl
      rfl
  rw [hcols, hd]

/-- C7 witness: the three naming rules at concrete strings, and the aggregate
of C8's request showing the non-empty alias `total_ms` verbatim in the output
schema. -/
theorem c7_naming_witness :
    specName "ms_played" (Spec.bare "sum") = "ms_played" ++ "_" ++ "sum"
    ∧ specName "ms_played" (Spec.aliased "sum" "total_ms") = "total_ms"
    ∧ specName "ms_played" (Spec.aliased "sum" "") = "ms_played" ++ "_" ++ "sum"
    ∧ (Table.mk ["artist", "total_ms"]
        [[("artist", Value.str "A"), ("total_ms", Value.int 380000)],
         [("artist", Value.str "B"), ("total_ms", Value.int 150000)]]).cols
      = ["artist"] ++ [specName "ms_played" (Spec.aliased "sum" "total_ms")] :=
  c7_amended_output_naming "ms_played" "sum" "total_ms" (by decide)
    (Spec.aliased "sum" "total_ms") t3 ["artist"] Filters.none
    (Table.mk ["artist", "total_ms"]
      [[("artist", Value.str "A"), ("total_ms", Value.int 380000)],
       [("artist", Value.str "B"), ("total_ms", Value.int 150000)]]) rfl rfl

/-- C2 (amended): on an empty table — never-loaded, zero-row, or
filtered-to-empty — both summaries return zero `total_records` and zero total
listening time, an absent date range, and never raise; the loader's summary
reports an empty column list and null unique counts, while the standalone
summary reports zero unique counts and the input frame's own column list. -/
theorem c2_amended_empty_summary (sv : Bool) (tz : String) (t t2 : Table)
    (sd ed : Option String) (h : t.rows = [])
    (h2 : (applyFilters t2 (Filters.list (dateFilters sd ed))).rows = []) :
    SpotifyDataLoader.get_summary ⟨Option.none, sv, tz⟩
      = Except.ok loaderEmptySummary
    ∧ SpotifyDataLoader.get_summary ⟨Option.some t, sv, tz⟩
      = Except.ok loaderEmptySummary
    ∧ get_summary Option.none sd ed
      = Except.ok ⟨0, 0, [], Option.none, Option.some 0, Option.some 0⟩
    ∧ get_summary (Option.some t2) sd ed
      = Except.ok ⟨0, 0, t2.cols, Option.none, Option.some 0, Option.some 0⟩ := by
  refine ⟨rfl, ?_, rfl, ?_⟩
  · simp [SpotifyDataLoader.get_summary, Table.is_empty, h]
  · by_cases he : t2.is_empty = true
    · have hrows : t2.rows = [] := by simpa [Table.is_empty] using he
      simp [get_summary, query_data, Table.is_empty, hrows, emptyTable]
    · have hrows : ¬ t2.rows = [] := by simpa [Table.is_empty] using he
      simp [get_summary, query_data, Table.is_empty, hrows, h2]

/-- C2 amended witness: the empty-table summaries at a never-loaded store, a
zero-row store, and a one-row store whose date filter excludes its row. -/
theorem c2_empty_summary_witness :
    SpotifyDataLoader.get_summary ⟨Option.none, false, "Asia/Taipei"⟩
      = Except.ok loaderEmptySummary
    ∧ SpotifyDataLoader.get_summary
        ⟨Option.some ⟨["track"], []⟩, false, "Asia/Taipei"⟩
      = Except.ok loaderEmptySummary
    ∧ get_summary Option.none (Option.some "2030-01-01") Option.none
      = Except.ok ⟨0, 0, [], Option.none, Option.some 0, Option.some 0⟩
    ∧ get_summary (Option.some tDated) (Option.some "2030-01-01") Option.none
      = Except.ok ⟨0, 0, tDated.cols, Option.none, Option.some 0, Option.some 0⟩ :=
  c2_amended_empty_summary false "Asia/Taipei" ⟨["track"], []⟩ tDated
    (Option.some "2030-01-01") Option.none rfl rfl

/-- C6 witness: the three filter laws at a concrete artist-equality predicate
over the 3-row store. -/
theorem c6_filter_witness :
    query_data (Option.some t3)
        (Filters.list [fun r => Row.get r "artist" == Value.str "A"])
        Option.none Option.none Option.none true
      = query_data (Option.some t3)
          (Filters.single (fun r =>
            [fun r => Row.get r "artist" == Value.str "A"].all (fun p => p r)))
          Option.none Option.none Option.none true
    ∧ query_data (Option.some t3) (Filters.list [])
        Option.none Option.none Option.none true
      = query_data (Option.some t3) Filters.none
          Option.none Option.none Option.none true
    ∧ query_data (Option.some t3)
        (Filters.list [fun r => Row.get r "artist" == Value.str "A"])
        Option.none Option.none Option.none true
      = Except.ok ⟨t3.cols, t3.rows.filter (fun r =>
          [fun r => Row.get r "artist" == Value.str "A"].all (fun p => p r))⟩ :=
  c6_filter_conjunction t3 rfl [fun r => Row.get r "artist" == Value.str "A"]
    Option.none Option.none Option.none true

/-- C10 witness: on the 3-row store with projection `["artist"]`, sorting by
the dropped `ms_played` column errors, and sorting by the kept `artist`
column returns the limit-1 prefix of the sorted projection. -/
theorem c10_clause_order_witness :
    query_data (Option.some t3) Filters.none (Option.some ["artist"])
        (Option.some 1) (Option.some "ms_played") true
      = Except.error ("ColumnNotFoundError: " ++ "ms_played")
    ∧ query_data (Option.some t3) Filters.none (Option.some ["artist"])
        (Option.some 1) (Option.some "artist") true
      = Except.ok ⟨["artist"], (sortRows (rowLe "artist" true)
          (projectRows ["artist"] (applyFilters t3 Filters.none).rows)).take 1⟩ :=
  c10_clause_order t3 rfl Filters.none ["artist"] "ms_played" "artist" 1 true
    rfl (by decide) rfl rfl

end Spotify
